import Mathlib

/-!
Shallow embedding of `src/webhook_api.py` (a TradingView-webhook → Capital.com
order relay) and proofs about its specified behaviour.

Conventions of the embedding:
* Python `float` prices/sizes are modelled as `ℚ` (all operations the claims
  touch are exact arithmetic and comparisons).
* A JSON field that may be missing or `None` is an `Option`; Python truthiness
  (`if not x`, `a or b`) is modelled explicitly for strings and numbers.
* I/O (HTTP responses, the idempotency file, the clock) is passed in as
  explicit data; a raised exception is `Except.error`.
-/

namespace WebhookApi

/-- Python truthiness of an optional string: `None` and `""` are falsy. -/
def truthyS : Option String → Bool
  | none => false
  | some s => s ≠ ""

/-- Python truthiness of an optional number: `None` and `0` are falsy. -/
def truthyQ : Option ℚ → Bool
  | none => false
  | some q => q ≠ 0

/-- Python `a or b` on results of `.get` calls returning strings. -/
def pyOrS (a b : Option String) : Option String :=
  if truthyS a then a else b

/-- Python `a or b` on results of `.get` calls returning numbers. -/
def pyOrQ (a b : Option ℚ) : Option ℚ :=
  if truthyQ a then a else b

/-! ### HTTP response and login (`login_to_capital`, lines 46-56) -/

/-- An HTTP response from the broker, as far as the code inspects it:
status, the `errorCode` field of the JSON body when the body is a JSON
object carrying one, and the raw text. -/
structure Response where
  status : Nat
  errorCode : Option String := none
  text : String := ""
  deriving Repr, DecidableEq

/-- The session credential pair held in the globals `CST` / `XST`. -/
structure Creds where
  cst : Option String
  xst : Option String
  deriving Repr, DecidableEq

/-- The broker's response to `POST /api/v1/session`: status plus the two
token headers (`headers.get` yields `None` when the header is absent). -/
structure LoginResp where
  status : Nat
  cstHeader : Option String := none
  xstHeader : Option String := none
  text : String := ""
  deriving Repr, DecidableEq

/-- `login_to_capital` (lines 46-56): raises `RuntimeError` iff the status is
not 200; otherwise stores whatever the two token headers carry — `headers.get`
returning `None` is assigned to the globals without any check. -/
def login_to_capital (r : LoginResp) : Except String Creds :=
  if r.status ≠ 200 then
    .error ("Login failed: " ++ r.text)
  else
    .ok { cst := r.cstHeader, xst := r.xstHeader }

/-! ### Authenticated request gateway (`capital_request`, lines 58-84) -/

/-- Lines 71-77: the response is classified as needing a re-login iff the
status is 401 or the JSON body is a dict whose `errorCode` is one of the two
known invalid-session codes. -/
def needs_relogin (r : Response) : Bool :=
  r.status == 401
    || r.errorCode == some "error.invalid.session.token"
    || r.errorCode == some "error.security.account.token.invalid"

/-- The data of one logical broker request as `capital_request` receives it. -/
structure Req where
  method : String
  path : String
  json_body : Option String := none
  headers_extra : Option String := none
  deriving Repr, DecidableEq

/-- What one run of `capital_request` observably did: the sequence of HTTP
requests issued, how many logins were performed, and the response returned. -/
structure GatewayTrace where
  issued : List Req
  logins : Nat
  result : Response
  deriving Repr, DecidableEq

/-- `capital_request` with `retry=False` (the recursive call at line 82):
issues the request once and returns whatever comes back — even if it is
again classified as needing a re-login, there is no further login or retry. -/
def capital_request_noretry (respond : Nat → Response) (req : Req)
    (attempt : Nat) : GatewayTrace :=
  { issued := [req], logins := 0, result := respond attempt }

/-- `capital_request` with the default `retry=True` (lines 58-84).
`respond n` is the broker's response to the n-th issue of this logical
request; `authed` says whether both global tokens were set on entry
(line 60 logs in first when they are not). -/
def capital_request (authed : Bool) (respond : Nat → Response) (req : Req) :
    GatewayTrace :=
  let initLogins : Nat := if authed then 0 else 1
  let r := respond 0
  if needs_relogin r then
    let t := capital_request_noretry respond req 1
    { issued := req :: t.issued, logins := initLogins + 1 + t.logins,
      result := t.result }
  else
    { issued := [req], logins := initLogins, result := r }

/-- `get_open_positions`' handling of the gateway result (lines 86-90):
any non-200 status returned by the gateway is raised as a `RuntimeError`;
this is how a terminal failing response is surfaced to the request path. -/
def raise_for_status (r : Response) : Except String Response :=
  if r.status ≠ 200 then .error r.text else .ok r

/-! ### Position normalization (`parse_pos`, lines 92-103) -/

/-- The fields `parse_pos` reads from the nested `"position"` sub-object. -/
structure NestedPos where
  dealId : Option String := none
  epic : Option String := none
  size : Option ℚ := none
  direction : Option String := none
  stopLevel : Option ℚ := none
  level : Option ℚ := none
  openLevel : Option ℚ := none
  deriving Repr, DecidableEq

/-- One raw broker position record, as far as `parse_pos` inspects it:
the flat fields, the `"position"` sub-object and the `"market"` sub-object
(`p.get("position", {})` on a record with no sub-object reads from an empty
dict, which is the all-`none` default here). -/
structure RawPos where
  dealId : Option String := none
  epic : Option String := none
  size : Option ℚ := none
  direction : Option String := none
  stopLevel : Option ℚ := none
  level : Option ℚ := none
  position : NestedPos := {}
  marketEpic : Option String := none
  deriving Repr, DecidableEq

/-- The canonical position record `parse_pos` returns. -/
structure Position where
  dealId : Option String
  epic : Option String
  size : ℚ
  direction : Option String
  stopLevel : Option ℚ
  avg : Option ℚ
  deriving Repr, DecidableEq

/-- `parse_pos` (lines 92-103): each field is `flat or nested` with Python
`or` (so a falsy flat value falls through to the nested variant); `size`
becomes `0.0` when falsy, `stopLevel`/`avg` become `None` when falsy. -/
def parse_pos (p : RawPos) : Position :=
  let deal_id := pyOrS p.dealId p.position.dealId
  let epic := pyOrS (pyOrS p.epic p.marketEpic) p.position.epic
  let size := pyOrQ p.size p.position.size
  let dir := pyOrS p.direction p.position.direction
  let sl := pyOrQ p.stopLevel p.position.stopLevel
  let avg := pyOrQ (pyOrQ p.level p.position.level) p.position.openLevel
  { dealId := deal_id, epic := epic,
    size := if truthyQ size then size.getD 0 else 0,
    direction := dir,
    stopLevel := if truthyQ sl then sl else none,
    avg := if truthyQ avg then avg else none }

/-- `find_position` (lines 105-110) applied to an already-fetched list:
the first parsed record whose `epic` equals the requested one. -/
def find_position (positions : List RawPos) (epic : String) : Option Position :=
  (positions.map parse_pos).find? (fun pp => pp.epic == some epic)

/-! ### Stop-change threshold (`need_sl_change`, lines 112-119) -/

/-- `need_sl_change` (lines 112-119). `tick` is `SL_ABS_TICK`, `pctMin` is
`SL_PCT_MIN`. A `ref_price` of `none` or `0` is falsy, giving `pct_diff = 0`.
The division is the literal `abs_diff / ref_price` of the source (no absolute
value on the quotient). -/
def need_sl_change (tick pctMin : ℚ) (current_sl new_sl ref_price : Option ℚ) :
    Bool :=
  match new_sl with
  | none => false
  | some ns =>
    match current_sl with
    | none => true
    | some cs =>
      let abs_diff := |cs - ns|
      if tick > 0 ∧ abs_diff ≥ tick then true
      else
        let pct_diff := if truthyQ ref_price then abs_diff / ref_price.getD 0 else 0
        pct_diff ≥ pctMin

/-! ### Idempotency store (lines 36-37, 144-174) -/

/-- `IDEMP_TTL_DAYS` (line 37). -/
def IDEMP_TTL_DAYS : ℤ := 2

/-- A stored timestamp string: either one `datetime.fromisoformat` parses
(represented by its UTC epoch seconds) or one it raises on. -/
inductive TimeStr
  | iso (t : ℤ)
  | bad
  deriving Repr, DecidableEq

/-- The state of the backing file `processed_signals.json`: absent (`open`
raises), present but not valid JSON (`json.load` raises), or a JSON object,
modelled as an insertion-ordered association list like a Python dict. -/
inductive FileContent
  | missing
  | corrupt
  | data (entries : List (String × TimeStr))
  deriving Repr, DecidableEq

/-- The raw dict `_load_ids` starts from: missing/corrupt files yield `{}`
via the `except` at lines 145-148. -/
def FileContent.rawEntries : FileContent → List (String × TimeStr)
  | .missing => []
  | .corrupt => []
  | .data entries => entries

/-- The prune loop of `_load_ids` (lines 150-157): keep an entry iff its
timestamp parses and `(now - t).days <= IDEMP_TTL_DAYS`; `timedelta.days`
is floor division of the elapsed seconds by 86400. -/
def pruneEntries (now : ℤ) (l : List (String × TimeStr)) :
    List (String × TimeStr) :=
  l.filter (fun e =>
    match e.2 with
    | .iso t => (now - t).fdiv 86400 ≤ IDEMP_TTL_DAYS
    | .bad => false)

/-- Python dict upsert `data[k] = v`: replace in place when the key exists,
append otherwise. -/
def upsertEntry (l : List (String × TimeStr)) (k : String) (v : TimeStr) :
    List (String × TimeStr) :=
  if l.any (fun e => e.1 = k) then
    l.map (fun e => if e.1 = k then (k, v) else e)
  else l ++ [(k, v)]

/-- `_load_ids` (lines 144-160). `canWrite` says whether opening the store
for writing succeeds; the rewrite at lines 158-159 is *outside* the
`try`, so a failing write while pruning raises out of `_load_ids`.
Returns the pruned dict together with the resulting file state. -/
def _load_ids (canWrite : Bool) (file : FileContent) (now : ℤ) :
    Except String (List (String × TimeStr) × FileContent) :=
  let data := file.rawEntries
  let keep := pruneEntries now data
  if keep ≠ data then
    if canWrite then .ok (keep, .data keep)
    else .error "idempotency store write failed"
  else .ok (keep, file)

/-- `_save_ids` (lines 162-163): a plain write, raising when it fails. -/
def _save_ids (canWrite : Bool) (data : List (String × TimeStr)) :
    Except String FileContent :=
  if canWrite then .ok (.data data)
  else .error "idempotency store write failed"

/-- `already_processed` (lines 165-168): falsy `signal_id` short-circuits to
`False` before touching the store; otherwise membership in the pruned dict.
Also returns the file state `_load_ids` left behind. -/
def already_processed (canWrite : Bool) (file : FileContent) (now : ℤ)
    (signal_id : Option String) : Except String (Bool × FileContent) :=
  if ¬ truthyS signal_id then .ok (false, file)
  else
    match _load_ids canWrite file now with
    | .error e => .error e
    | .ok (data, file') =>
      .ok (data.any (fun e => e.1 = signal_id.getD ""), file')

/-- `mark_processed` (lines 170-174): no-op on falsy `signal_id`; otherwise
load-prune, upsert the id with the current UTC time, and save. -/
def mark_processed (canWrite : Bool) (file : FileContent) (now : ℤ)
    (signal_id : Option String) : Except String FileContent :=
  if ¬ truthyS signal_id then .ok file
  else
    match _load_ids canWrite file now with
    | .error e => .error e
    | .ok (data, _) =>
      _save_ids canWrite (upsertEntry data (signal_id.getD "") (.iso now))

/-! ### The webhook handler (`handle_webhook`, lines 177-301) -/

/-- `SYMBOL_EPIC_MAP` (lines 18-31): symbol token ↦ (epic, default size). -/
def SYMBOL_EPIC_MAP : List (String × String × ℚ) :=
  [("DOGEUSD", "DOGEUSD", 2200), ("GOLD", "GOLD", 17/10),
   ("SILVER", "SILVER", 70), ("COPPER", "COPPER", 550),
   ("OIL_CRUDE", "OIL_CRUDE", 45), ("EU50", "EU50", 4/5),
   ("UK100", "UK100", 2/5), ("EURUSD", "EURUSD", 7000),
   ("LRC", "LRC", 1/2), ("ETHUSD", "ETHUSD", 3/25),
   ("NATURALGAS", "NATURALGAS", 700), ("NVDA", "NVDA", 8)]

/-- The body of a `POST /api/v1/positions` order (lines 238-239, 274-275,
280-284). -/
structure OrderPayload where
  epic : String
  direction : String
  size : ℚ
  orderType : String := "MARKET"
  currencyCode : String := "USD"
  forceOpen : Bool := false
  stopLevel : Option ℚ := none
  limitLevel : Option ℚ := none
  deriving Repr, DecidableEq

/-- One broker call the handler can emit (beyond the login traffic, which is
internal to the gateway). -/
inductive BrokerCall
  | fetchPositions
  | deletePos (dealId : String)
  | postOrder (p : OrderPayload)
  | amendPos (dealId : String) (stopLevel limitLevel : Option ℚ)
  deriving Repr, DecidableEq

/-- A call that places, amends or deletes (anything but the read-only
position snapshot). -/
def BrokerCall.isMutating : BrokerCall → Bool
  | .fetchPositions => false
  | _ => true

/-- The parsed webhook body, fields as read at lines 187-193 and 207. -/
structure Signal where
  symbol : Option String := none
  action : Option String := none
  intent : Option String := none
  side : Option String := none
  stop_loss : Option ℚ := none
  take_profit : Option ℚ := none
  signal_id : Option String := none
  size : Option ℚ := none
  deriving Repr, DecidableEq

/-- The statuses the broker would answer at each call site of one handler
run, and the open-position list the snapshot returns. -/
structure BrokerEnv where
  fetchStatus : Nat := 200
  positions : List RawPos := []
  deleteStatus : Nat := 200
  closeOrderStatus : Nat := 200
  entryStatus : Nat := 200
  amendStatus : Nat := 200
  deriving Repr, DecidableEq

instance {ε α : Type} [DecidableEq ε] [DecidableEq α] :
    DecidableEq (Except ε α) := fun a b =>
  match a, b with
  | .error x, .error y =>
    if h : x = y then .isTrue (by rw [h])
    else .isFalse (fun hh => by cases hh; exact h rfl)
  | .error _, .ok _ => .isFalse (fun hh => by cases hh)
  | .ok _, .error _ => .isFalse (fun hh => by cases hh)
  | .ok x, .ok y =>
    if h : x = y then .isTrue (by rw [h])
    else .isFalse (fun hh => by cases hh; exact h rfl)

/-- What one handler run observably did: broker calls in order, whether a
`mark_processed` for this signal ran to completion, the final state of the
idempotency file, and the HTTP outcome (`.error (status, detail)` models a
raised `HTTPException`, `.ok tag` a returned status tag). -/
structure HookResult where
  calls : List BrokerCall
  marked : Bool
  fileAfter : FileContent
  outcome : Except (Nat × String) String
  deriving Repr, DecidableEq

/-- Run `mark_processed` and return the given status tag, as every success
exit of the handler does; a store-write failure propagates to the generic
`except Exception` (line 299) and becomes a 500. -/
def mark_then (canWrite : Bool) (now : ℤ) (sid : Option String)
    (calls : List BrokerCall) (file : FileContent) (tag : String) :
    HookResult :=
  match mark_processed canWrite file now sid with
  | .error e =>
    { calls := calls, marked := false, fileAfter := file,
      outcome := .error (500, e) }
  | .ok file' =>
    { calls := calls, marked := true, fileAfter := file',
      outcome := .ok tag }

/-- `amend_stop_limit`'s payload construction and empty-payload early return
(lines 121-126): `none` when there is nothing to amend, otherwise the PUT. -/
def amend_stop_limit_call (deal_id : String) (new_sl new_tp : Option ℚ) :
    Option BrokerCall :=
  if new_sl = none ∧ new_tp = none then none
  else some (.amendPos deal_id new_sl new_tp)

/-- The entry payload of lines 280-284. -/
def entry_payload (epic dir : String) (size : ℚ) (sl tp : Option ℚ) :
    OrderPayload :=
  { epic := epic, direction := dir, size := size, stopLevel := sl,
    limitLevel := tp }

/-- The final entry-order step (lines 280-294), after `callsPrior` broker
calls have already happened. -/
def do_entry (canWrite : Bool) (env : BrokerEnv) (now : ℤ) (d : Signal)
    (epic dir : String) (size : ℚ) (callsPrior : List BrokerCall)
    (file : FileContent) : HookResult :=
  let payload := entry_payload epic dir size d.stop_loss d.take_profit
  let calls := callsPrior ++ [.postOrder payload]
  if env.entryStatus ≠ 200 then
    { calls := calls, marked := false, fileAfter := file,
      outcome := .error (500, "Entry order error") }
  else
    mark_then canWrite now d.signal_id calls file "entry executed"

/-- The CLOSE branch (lines 213-248). -/
def handle_close (canWrite : Bool) (env : BrokerEnv) (now : ℤ) (d : Signal)
    (epic : String) (file : FileContent) (pos : Option Position) :
    HookResult :=
  match pos with
  | none =>
    mark_then canWrite now d.signal_id [.fetchPositions] file
      "no_position_to_close"
  | some pp =>
    if d.side = some "long" ∧ pp.direction ≠ some "BUY" then
      mark_then canWrite now d.signal_id [.fetchPositions] file
        "mismatch_side_noop"
    else if d.side = some "short" ∧ pp.direction ≠ some "SELL" then
      mark_then canWrite now d.signal_id [.fetchPositions] file
        "mismatch_side_noop"
    else
      let delCalls : List BrokerCall :=
        if truthyS pp.dealId then [.deletePos (pp.dealId.getD "")] else []
      let okDel : Bool :=
        truthyS pp.dealId
          && (env.deleteStatus == 200 || env.deleteStatus == 204)
      if okDel then
        mark_then canWrite now d.signal_id (.fetchPositions :: delCalls) file
          "positions closed"
      else
        let close_direction :=
          if pp.direction = some "BUY" then "SELL" else "BUY"
        let payload : OrderPayload :=
          { epic := epic, direction := close_direction, size := pp.size }
        let calls := .fetchPositions :: delCalls ++ [.postOrder payload]
        if env.closeOrderStatus ≠ 200 then
          { calls := calls, marked := false, fileAfter := file,
            outcome := .error (500, "Close order error") }
        else
          mark_then canWrite now d.signal_id calls file "positions closed"

/-- The OPEN / amend-SL branch (lines 250-294). -/
def handle_open (tick pctMin : ℚ) (canWrite : Bool) (env : BrokerEnv)
    (now : ℤ) (d : Signal) (epic : String) (size : ℚ) (file : FileContent)
    (pos : Option Position) : HookResult :=
  let dir_open_req := if d.action = some "buy" then "BUY" else "SELL"
  match pos with
  | some pp =>
    if pp.direction = some dir_open_req then
      if need_sl_change tick pctMin pp.stopLevel d.stop_loss pp.avg
          ∨ d.take_profit ≠ none then
        match amend_stop_limit_call (pp.dealId.getD "None") d.stop_loss
            d.take_profit with
        | none =>
          mark_then canWrite now d.signal_id [.fetchPositions] file
            "amended stop/limit"
        | some c =>
          if env.amendStatus = 200 ∨ env.amendStatus = 201 then
            mark_then canWrite now d.signal_id [.fetchPositions, c] file
              "amended stop/limit"
          else
            { calls := [.fetchPositions, c], marked := false,
              fileAfter := file, outcome := .error (500, "Amend failed") }
      else
        mark_then canWrite now d.signal_id [.fetchPositions] file
          "ignored (dup entry / no SL change)"
    else
      let delCalls : List BrokerCall :=
        if truthyS pp.dealId then [.deletePos (pp.dealId.getD "")] else []
      let okDel : Bool :=
        truthyS pp.dealId
          && (env.deleteStatus == 200 || env.deleteStatus == 204)
      if okDel then
        do_entry canWrite env now d epic dir_open_req size
          (.fetchPositions :: delCalls) file
      else
        let close_direction :=
          if pp.direction = some "BUY" then "SELL" else "BUY"
        let payload : OrderPayload :=
          { epic := epic, direction := close_direction, size := pp.size }
        let calls := .fetchPositions :: delCalls ++ [.postOrder payload]
        if env.closeOrderStatus ≠ 200 then
          { calls := calls, marked := false, fileAfter := file,
            outcome := .error (500, "Close-before-open error") }
        else
          do_entry canWrite env now d epic dir_open_req size calls file
  | none =>
    do_entry canWrite env now d epic dir_open_req size [.fetchPositions] file

/-- `handle_webhook` (lines 177-301) for an already-JSON-parsed body:
validation, dedup check, symbol lookup, position snapshot, then the
close or open branch. -/
def handle_webhook (tick pctMin : ℚ) (canWrite : Bool) (env : BrokerEnv)
    (file0 : FileContent) (now : ℤ) (d : Signal) : HookResult :=
  if ¬ (truthyS d.symbol ∧ truthyS d.action) then
    { calls := [], marked := false, fileAfter := file0,
      outcome := .error (400, "Missing symbol or action") }
  else
    match SYMBOL_EPIC_MAP.find? (fun e => e.1 = d.symbol.getD "") with
    | none =>
      { calls := [], marked := false, fileAfter := file0,
        outcome := .error (400, "Unknown symbol") }
    | some entry =>
      if ¬ (d.action = some "buy" ∨ d.action = some "sell"
              ∨ d.action = some "close") then
        { calls := [], marked := false, fileAfter := file0,
          outcome := .error (400, "Invalid action") }
      else
        match already_processed canWrite file0 now d.signal_id with
        | .error e =>
          { calls := [], marked := false, fileAfter := file0,
            outcome := .error (500, e) }
        | .ok (dup, file1) =>
          if dup then
            { calls := [], marked := false, fileAfter := file1,
              outcome := .ok "duplicate_ignored" }
          else
            let epic := entry.2.1
            let size := d.size.getD entry.2.2
            if env.fetchStatus ≠ 200 then
              { calls := [.fetchPositions], marked := false,
                fileAfter := file1,
                outcome := .error (500, "Fetch positions failed") }
            else
              let pos := find_position env.positions epic
              if d.action = some "close" ∨ d.intent = some "close" then
                handle_close canWrite env now d epic file1 pos
              else
                handle_open tick pctMin canWrite env now d epic size file1
                  pos

/-! ### CLOSE_PARTIAL (spec §4.5; not implemented in this `src/` revision) -/

/-- Rounding to a fixed fractional precision (two decimal places). -/
def roundTo2 (q : ℚ) : ℚ := (round (q * 100) : ℚ) / 100

/-- Modelled from the spec: the CLOSE_PARTIAL rows of the Intent
Reconciliation Engine table (§4.5) are missing from `src/webhook_api.py` —
that revision only implements full close. Spec wording: with no position,
no-op; with a position and a size ratio in (0,1), exactly one offsetting
order sized `existingSize * ratio` rounded to a fixed fractional precision,
direction opposite the current position, flagged as size-reducing (it does
not open a new position, i.e. `forceOpen = false`); a ratio outside (0,1) is
treated as a full close. -/
def handle_partial_close (epic : String) (pos : Option Position)
    (ratio : ℚ) : List OrderPayload :=
  match pos with
  | none => []
  | some pp =>
    let dirOpp := if pp.direction = some "BUY" then "SELL" else "BUY"
    if 0 < ratio ∧ ratio < 1 then
      [{ epic := epic, direction := dirOpp,
         size := roundTo2 (pp.size * ratio), forceOpen := false }]
    else
      [{ epic := epic, direction := dirOpp, size := pp.size,
         forceOpen := false }]

end WebhookApi

namespace WebhookApi

/-! ## Theorems -/

/-- **C4, counterexample.** The claim says `authenticate()` fails with
`AuthenticationError` when the status is successful but a session token is
missing from the headers. The code does not: on a 200 response with neither
token header, `login_to_capital` returns successfully and leaves both
credentials unset (`None`) — a silent pass-through. -/
theorem C4_counterexample :
    login_to_capital { status := 200, cstHeader := none, xstHeader := none } =
      Except.ok { cst := none, xst := none } := by
  decide

/-- **C4, amended.** `login_to_capital` raises (`RuntimeError`) exactly when
the HTTP status is not 200; on a 200 response it stores whatever the two
token headers carry — a missing header leaves that credential `None`
without any error. -/
theorem C4_login_behaviour (r : LoginResp) :
    (r.status ≠ 200 →
      login_to_capital r = Except.error ("Login failed: " ++ r.text)) ∧
    (r.status = 200 →
      login_to_capital r = Except.ok { cst := r.cstHeader, xst := r.xstHeader }) := by
  constructor <;> intro h <;> simp [login_to_capital, h]

/-- **C4, witness.** The amended theorem applied at a concrete failing
login response. -/
theorem C4_login_behaviour_witness :
    login_to_capital { status := 401, text := "denied" } =
      Except.error ("Login failed: " ++ "denied") :=
  (C4_login_behaviour { status := 401, text := "denied" }).1 (by decide)

/-- **C8, counterexample.** The claim says the flat field is preferred
whenever both the flat field and the nested variant are present. Python
`or` discards *falsy* flat values: with a present-but-empty flat `dealId`
and a nested `dealId`, normalization returns the nested value, not the
flat one. -/
theorem C8_counterexample :
    (parse_pos { dealId := some "",
                 position := { dealId := some "ABC" } }).dealId =
        some "ABC" ∧
    (RawPos.dealId { dealId := some "",
                     position := { dealId := some "ABC" } }) = some "" := by
  constructor <;> decide

/-- **C8, amended.** For *truthy* field values (non-empty strings, nonzero
numbers) the claim holds: a flat-shaped record and a nested-shaped record
describing the same position normalize to identical canonical `Position`
values, and when both shapes are present the truthy flat fields win over
any nested variant. -/
theorem C8_normalization (did ep dir : String) (sz sl av : ℚ)
    (hdid : did ≠ "") (hep : ep ≠ "") (hdir : dir ≠ "")
    (hsz : sz ≠ 0) (hsl : sl ≠ 0) (hav : av ≠ 0) :
    (parse_pos { dealId := some did, epic := some ep, size := some sz,
                 direction := some dir, stopLevel := some sl,
                 level := some av } =
       parse_pos { position := { dealId := some did, epic := some ep,
                                 size := some sz, direction := some dir,
                                 stopLevel := some sl, level := some av } }) ∧
    (∀ (nested : NestedPos) (mEpic : Option String),
       parse_pos { dealId := some did, epic := some ep, size := some sz,
                   direction := some dir, stopLevel := some sl,
                   level := some av, position := nested,
                   marketEpic := mEpic } =
         parse_pos { dealId := some did, epic := some ep, size := some sz,
                     direction := some dir, stopLevel := some sl,
                     level := some av }) := by
  constructor
  · simp [parse_pos, pyOrS, pyOrQ, truthyS, truthyQ, hdid, hep, hdir, hsz,
      hsl, hav]
  · intro nested mEpic
    simp [parse_pos, pyOrS, pyOrQ, truthyS, truthyQ, hdid, hep, hdir, hsz,
      hsl, hav]

/-- **C8, witness.** The amended theorem applied at a concrete position
(deal `D1`, epic `GOLD`, size 5, direction `BUY`, stop 1900, level 2000):
flat and nested shapes normalize identically. -/
theorem C8_normalization_witness :
    parse_pos { dealId := some "D1", epic := some "GOLD", size := some 5,
                direction := some "BUY", stopLevel := some 1900,
                level := some 2000 } =
      parse_pos { position := { dealId := some "D1", epic := some "GOLD",
                                size := some 5, direction := some "BUY",
                                stopLevel := some 1900,
                                level := some 2000 } } :=
  (C8_normalization "D1" "GOLD" "BUY" 5 1900 2000 (by decide) (by decide)
    (by decide) (by decide) (by decide) (by decide)).1

/-- **C1.** If the first response to an authenticated call is classified
auth-expired (401 status or a known invalid-session `errorCode`), the
gateway re-authenticates exactly once and re-issues the identical request
exactly once (`issued = [req, req]`); the second response is returned
as-is — no third request, no further login — and when it is a failing
(non-200) response the caller's status check surfaces it as a terminal
error. -/
theorem C1_gateway_retry_once (authed : Bool) (respond : Nat → Response)
    (req : Req) (h1 : needs_relogin (respond 0) = true) :
    (capital_request authed respond req).issued = [req, req] ∧
    (capital_request authed respond req).logins =
      (if authed then 0 else 1) + 1 ∧
    (capital_request authed respond req).result = respond 1 ∧
    (needs_relogin (respond 1) = true → (respond 1).status ≠ 200 →
      raise_for_status (capital_request authed respond req).result =
        Except.error (respond 1).text) := by
  refine ⟨?_, ?_, ?_, ?_⟩ <;>
    simp [capital_request, capital_request_noretry, h1]
  intro _ h2
  simp [raise_for_status, h2]

/-- A broker that answers 401 to every request. -/
def alwaysExpired : Nat → Response := fun _ => { status := 401 }

/-- **C1, witness.** A persistent 401: two identical requests are issued,
one re-login happens, and the second 401 is surfaced as a terminal error. -/
theorem C1_gateway_retry_once_witness :
    (capital_request true alwaysExpired
        { method := "GET", path := "/api/v1/positions" }).issued =
      [{ method := "GET", path := "/api/v1/positions" },
       { method := "GET", path := "/api/v1/positions" }] ∧
    (capital_request true alwaysExpired
        { method := "GET", path := "/api/v1/positions" }).logins = 1 ∧
    raise_for_status
        (capital_request true alwaysExpired
          { method := "GET", path := "/api/v1/positions" }).result =
      Except.error "" := by
  have h := C1_gateway_retry_once true alwaysExpired
    { method := "GET", path := "/api/v1/positions" } (by decide)
  refine ⟨h.1, by simpa using h.2.1, ?_⟩
  have h4 := h.2.2.2 (by decide) (by decide)
  simpa using h4

/-- **C2.** (Modelled from the spec — the CLOSE_PARTIAL branch is absent
from this `src/` revision.) For a CLOSE_PARTIAL signal against an existing
position of size `S` and a ratio `r ∈ (0,1)`: exactly one offsetting order
is emitted, sized `roundTo2 (S * r)`, in the direction opposite the
existing position, flagged size-reducing (`forceOpen = false`). -/
theorem C2_partial_close (epic : String) (pp : Position) (ratio : ℚ)
    (h0 : 0 < ratio) (h1 : ratio < 1) :
    handle_partial_close epic (some pp) ratio =
      [{ epic := epic,
         direction := if pp.direction = some "BUY" then "SELL" else "BUY",
         size := roundTo2 (pp.size * ratio), forceOpen := false }] ∧
    (handle_partial_close epic (some pp) ratio).length = 1 ∧
    (pp.direction = some "BUY" →
      (handle_partial_close epic (some pp) ratio).map (·.direction) =
        ["SELL"]) ∧
    (pp.direction = some "SELL" →
      (handle_partial_close epic (some pp) ratio).map (·.direction) =
        ["BUY"]) ∧
    (∀ o ∈ handle_partial_close epic (some pp) ratio, o.forceOpen = false) := by
  have hmain : handle_partial_close epic (some pp) ratio =
      [{ epic := epic,
         direction := if pp.direction = some "BUY" then "SELL" else "BUY",
         size := roundTo2 (pp.size * ratio), forceOpen := false }] := by
    simp [handle_partial_close, h0, h1]
  refine ⟨hmain, ?_, ?_, ?_, ?_⟩
  · rw [hmain]; rfl
  · intro hb; rw [hmain]; simp [hb]
  · intro hb; rw [hmain]; simp [hb]
  · intro o ho; rw [hmain] at ho; simp at ho; rw [ho]

/-- **C2, witness.** CLOSE_PARTIAL with ratio 1/2 against an existing BUY
position of size 10 emits exactly the offsetting SELL order of size 5. -/
theorem C2_partial_close_witness :
    handle_partial_close "GOLD"
      (some { dealId := some "D1", epic := some "GOLD", size := 10,
              direction := some "BUY", stopLevel := none, avg := none })
      (1/2) =
      [{ epic := "GOLD", direction := "SELL", size := 5,
         forceOpen := false }] := by
  have h := (C2_partial_close "GOLD"
    { dealId := some "D1", epic := some "GOLD", size := 10,
      direction := some "BUY", stopLevel := none, avg := none }
    (1/2) (by norm_num) (by norm_num)).1
  rw [h]
  norm_num [roundTo2]

/-- **C5, counterexample.** The claim says `isProcessed` returns false once
the 2-day window has elapsed. A record marked at time 0 and queried
176400 s (= 2 days and 1 hour) later — after the 2-day window — is still
reported processed and is not pruned, because `timedelta.days` floors:
`(now - t).days = 2 ≤ IDEMP_TTL_DAYS`. -/
theorem C5_counterexample :
    already_processed true (.data [("sig-1", .iso 0)]) 176400
        (some "sig-1") =
      Except.ok (true, .data [("sig-1", .iso 0)]) := by
  decide

/-- **C5, amended.** A record marked at time `t` is reported processed at
`now` exactly while the *floored whole-day* age `(now - t).days` is ≤ 2
(i.e. until 3 full days have elapsed, not 2), and is pruned from the store
once the floored age exceeds 2 days; every record a load keeps has floored
age ≤ 2 days, so an expired record never blocks reprocessing. -/
theorem C5_retention (sid : String) (t now : ℤ)
    (l : List (String × TimeStr)) (hsid : sid ≠ "") :
    (mark_processed true (.data []) t (some sid) =
       Except.ok (.data [(sid, .iso t)])) ∧
    ((now - t).fdiv 86400 ≤ 2 →
       already_processed true (.data [(sid, .iso t)]) now (some sid) =
         Except.ok (true, .data [(sid, .iso t)])) ∧
    (2 < (now - t).fdiv 86400 →
       already_processed true (.data [(sid, .iso t)]) now (some sid) =
         Except.ok (false, .data [])) ∧
    (∀ k u, (k, TimeStr.iso u) ∈ pruneEntries now l →
       (now - u).fdiv 86400 ≤ 2) := by
  refine ⟨?_, ?_, ?_, ?_⟩
  · simp [mark_processed, truthyS, hsid, _load_ids, FileContent.rawEntries,
      pruneEntries, upsertEntry, _save_ids]
  · intro h
    simp [already_processed, truthyS, hsid, _load_ids,
      FileContent.rawEntries, pruneEntries, IDEMP_TTL_DAYS, h]
  · intro h
    simp [already_processed, truthyS, hsid, _load_ids,
      FileContent.rawEntries, pruneEntries, IDEMP_TTL_DAYS, not_le.mpr h]
  · intro k u hm
    simp [pruneEntries, List.mem_filter, IDEMP_TTL_DAYS] at hm
    exact hm.2

/-- **C5, witness.** The amended theorem applied one day after marking:
still within the window, reported processed. -/
theorem C5_retention_witness :
    already_processed true (.data [("s", .iso 0)]) 86400 (some "s") =
      Except.ok (true, .data [("s", .iso 0)]) :=
  (C5_retention "s" 0 86400 [] (by decide)).2.1 (by decide)

/-- **C6, counterexample.** The claim says no storage read/write failure
ever fails the signal-processing request. But the pruning rewrite at
lines 158-159 of `_load_ids` sits *outside* the `try`: with a store that
needs pruning and a failing write, the dedup *read* in `handle_webhook`
raises and the whole request fails with a 500. -/
theorem C6_counterexample :
    (handle_webhook 0 0 false {} (.data [("old", .iso 0)]) 259200
       { symbol := some "GOLD", action := some "buy",
         signal_id := some "sig-9" }).outcome =
      Except.error (500, "idempotency store write failed") := by
  decide

/-- **C6, amended.** A missing or corrupt backing file is indeed tolerated
on every read: it is treated as empty, `isProcessed` degrades to "not yet
processed" and no error is raised (no pruning rewrite is attempted, since
the empty dict equals its own pruning). A *write* failure, however — the
pruning rewrite or the save in `markProcessed` — propagates and fails the
request. -/
theorem C6_store_read_tolerance (canWrite : Bool) (now : ℤ)
    (sid : Option String) (file : FileContent)
    (hfile : file = FileContent.missing ∨ file = FileContent.corrupt) :
    already_processed canWrite file now sid = Except.ok (false, file) ∧
    (¬ truthyS sid = true → mark_processed canWrite file now sid =
       Except.ok file) ∧
    (truthyS sid = true → mark_processed canWrite file now sid =
       _save_ids canWrite [(sid.getD "", .iso now)]) := by
  have hraw : file.rawEntries = [] := by
    rcases hfile with h | h <;> subst h <;> rfl
  by_cases hs : truthyS sid = true <;>
    simp [already_processed, mark_processed, _load_ids, hraw, pruneEntries,
      upsertEntry, _save_ids, hs]

/-- **C6, witness.** The amended theorem applied to a missing store file:
the read succeeds and reports "not processed". -/
theorem C6_store_read_tolerance_witness :
    already_processed true FileContent.missing 0 (some "a") =
      Except.ok (false, FileContent.missing) :=
  (C6_store_read_tolerance true 0 (some "a") FileContent.missing
    (Or.inl rfl)).1

/-- **C7.** Absent (`None`) or empty signal ids are never deduplicated
(`already_processed` is false) and `mark_processed` leaves the store
untouched; for a present id, `mark_processed` upserts the pruned dict with
the current UTC timestamp, and re-marking an already-stored id overwrites
it in place, keyed uniquely, last-write-wins. -/
theorem C7_id_policy (canWrite : Bool) (file : FileContent) (now t1 t2 : ℤ)
    (sid : String) (hsid : sid ≠ "") :
    (already_processed canWrite file now none = Except.ok (false, file)) ∧
    (already_processed canWrite file now (some "") =
       Except.ok (false, file)) ∧
    (mark_processed canWrite file now none = Except.ok file) ∧
    (mark_processed canWrite file now (some "") = Except.ok file) ∧
    (∀ data file', _load_ids canWrite file now = Except.ok (data, file') →
       mark_processed canWrite file now (some sid) =
         _save_ids canWrite (upsertEntry data sid (.iso now))) ∧
    (mark_processed true (.data [(sid, .iso t1)]) t2 (some sid) =
       Except.ok (.data [(sid, .iso t2)])) := by
  refine ⟨?_, ?_, ?_, ?_, ?_, ?_⟩
  · simp [already_processed, truthyS]
  · simp [already_processed, truthyS]
  · simp [mark_processed, truthyS]
  · simp [mark_processed, truthyS]
  · intro data file' h
    simp [mark_processed, truthyS, hsid, h]
  · by_cases hp : (t2 - t1).fdiv 86400 ≤ 2 <;>
      simp [mark_processed, truthyS, hsid, _load_ids,
        FileContent.rawEntries, pruneEntries, IDEMP_TTL_DAYS, hp,
        upsertEntry, _save_ids]

/-- **C7, witness.** Re-marking id `a` at time 100 overwrites the old
record in place. -/
theorem C7_id_policy_witness :
    mark_processed true (.data [("a", .iso 0)]) 100 (some "a") =
      Except.ok (.data [("a", .iso 100)]) :=
  (C7_id_policy true FileContent.missing 0 0 100 "a" (by decide)).2.2.2.2.2

/-! ### Helper lemmas about the store with a writable file -/

lemma load_ids_true (file : FileContent) (now : ℤ) :
    _load_ids true file now =
      Except.ok (pruneEntries now file.rawEntries,
        if pruneEntries now file.rawEntries ≠ file.rawEntries then
          .data (pruneEntries now file.rawEntries)
        else file) := by
  by_cases h : pruneEntries now file.rawEntries ≠ file.rawEntries <;>
    simp [_load_ids, h]

lemma mark_processed_true (file : FileContent) (now : ℤ)
    (sid : Option String) :
    mark_processed true file now sid =
      if truthyS sid then
        Except.ok (.data (upsertEntry (pruneEntries now file.rawEntries)
          (sid.getD "") (.iso now)))
      else Except.ok file := by
  by_cases hs : truthyS sid = true
  · simp [mark_processed, hs, load_ids_true, _save_ids]
  · simp [mark_processed, hs]

lemma mark_then_true_spec (now : ℤ) (sid : Option String)
    (calls : List BrokerCall) (file : FileContent) (tag : String) :
    mark_then true now sid calls file tag =
      { calls := calls, marked := true,
        fileAfter :=
          if truthyS sid then
            .data (upsertEntry (pruneEntries now file.rawEntries)
              (sid.getD "") (.iso now))
          else file,
        outcome := Except.ok tag } := by
  by_cases hs : truthyS sid = true <;>
    simp [mark_then, mark_processed_true, hs]


/-! ### C9 infrastructure: no success-mark on any error path -/

/-- Loading an already-pruned store changes nothing and reports the same
membership: stability of `already_processed` under its own file rewrite. -/
lemma pruneEntries_idem (now : ℤ) (l : List (String × TimeStr)) :
    pruneEntries now (pruneEntries now l) = pruneEntries now l := by
  simp [pruneEntries, List.filter_filter]

lemma load_ids_noprune (cw : Bool) (file : FileContent) (now : ℤ)
    (hk : pruneEntries now file.rawEntries = file.rawEntries) :
    _load_ids cw file now =
      Except.ok (pruneEntries now file.rawEntries, file) := by
  simp [_load_ids, hk]

lemma already_processed_stable (cw : Bool) (file : FileContent) (now : ℤ)
    (sid : Option String) (b : Bool) (f1 : FileContent)
    (h : already_processed cw file now sid = Except.ok (b, f1)) :
    already_processed cw f1 now sid = Except.ok (b, f1) := by
  by_cases hs : truthyS sid = true
  · by_cases hk : pruneEntries now file.rawEntries = file.rawEntries
    · simp [already_processed, hs, load_ids_noprune cw file now hk] at h
      obtain ⟨hb, hf⟩ := h
      subst hf
      simp [already_processed, hs, load_ids_noprune cw file now hk, hb]
    · cases cw with
      | false =>
        exfalso
        simp [already_processed, hs, _load_ids, hk] at h
      | true =>
        simp [already_processed, hs, load_ids_true, hk] at h
        obtain ⟨hb, hf⟩ := h
        subst hf
        simp [already_processed, hs, load_ids_true, FileContent.rawEntries,
          pruneEntries_idem] at hb ⊢
        exact hb
  · simp [already_processed, hs] at h
    obtain ⟨hb, hf⟩ := h
    subst hf
    simp [already_processed, hs, hb]

/-- A handler-branch result is *safe* relative to the store state `file` it
started from: a completed mark implies a success outcome, and an error
outcome implies no mark happened and the store was left as `file`. -/
def SafeResult (file : FileContent) (r : HookResult) : Prop :=
  (r.marked = true → ∃ tag, r.outcome = Except.ok tag) ∧
  (∀ e, r.outcome = Except.error e → r.marked = false ∧ r.fileAfter = file)

lemma safeResult_error (calls : List BrokerCall) (file : FileContent)
    (st : Nat) (msg : String) :
    SafeResult file
      { calls := calls, marked := false, fileAfter := file,
        outcome := Except.error (st, msg) } := by
  exact ⟨by simp, fun e he => ⟨rfl, rfl⟩⟩

lemma safeResult_mark_then (cw : Bool) (now : ℤ) (sid : Option String)
    (calls : List BrokerCall) (file : FileContent) (tag : String) :
    SafeResult file (mark_then cw now sid calls file tag) := by
  unfold mark_then
  cases h : mark_processed cw file now sid with
  | error e => exact ⟨by simp, fun e' he' => ⟨rfl, rfl⟩⟩
  | ok f' => exact ⟨fun hm => ⟨tag, rfl⟩, by simp⟩

lemma safeResult_do_entry (cw : Bool) (env : BrokerEnv) (now : ℤ)
    (d : Signal) (epic dir : String) (size : ℚ)
    (callsPrior : List BrokerCall) (file : FileContent) :
    SafeResult file (do_entry cw env now d epic dir size callsPrior file) := by
  unfold do_entry
  split
  · exact safeResult_error _ _ _ _
  · exact safeResult_mark_then _ _ _ _ _ _

lemma safeResult_handle_close (cw : Bool) (env : BrokerEnv) (now : ℤ)
    (d : Signal) (epic : String) (file : FileContent)
    (pos : Option Position) :
    SafeResult file (handle_close cw env now d epic file pos) := by
  cases pos <;>
    simp only [handle_close] <;>
    repeat' first
      | exact safeResult_mark_then _ _ _ _ _ _
      | exact safeResult_error _ _ _ _
      | split

lemma safeResult_handle_open (tick pctMin : ℚ) (cw : Bool)
    (env : BrokerEnv) (now : ℤ) (d : Signal) (epic : String) (size : ℚ)
    (file : FileContent) (pos : Option Position) :
    SafeResult file
      (handle_open tick pctMin cw env now d epic size file pos) := by
  cases pos <;>
    simp only [handle_open] <;>
    repeat' first
      | exact safeResult_mark_then _ _ _ _ _ _
      | exact safeResult_error _ _ _ _
      | exact safeResult_do_entry _ _ _ _ _ _ _ _ _
      | split

/-- The C9 property bundle, relative to the store `file` and signal id the
run started from. -/
def MarkSafe (cw : Bool) (file : FileContent) (now : ℤ)
    (sid : Option String) (r : HookResult) : Prop :=
  (r.marked = true → ∃ tag, r.outcome = Except.ok tag) ∧
  (∀ e, r.outcome = Except.error e → r.marked = false) ∧
  (∀ e b f1, r.outcome = Except.error e →
     already_processed cw file now sid = Except.ok (b, f1) →
     already_processed cw r.fileAfter now sid = Except.ok (b, f1))

lemma markSafe_error_record (cw : Bool) (file : FileContent) (now : ℤ)
    (sid : Option String) (calls : List BrokerCall) (st : Nat)
    (msg : String) :
    MarkSafe cw file now sid
      { calls := calls, marked := false, fileAfter := file,
        outcome := Except.error (st, msg) } := by
  exact ⟨by simp, fun e he => rfl, fun e b f1 he hq => hq⟩

lemma markSafe_ok_unmarked (cw : Bool) (file : FileContent) (now : ℤ)
    (sid : Option String) (calls : List BrokerCall) (f1 : FileContent)
    (tag : String) :
    MarkSafe cw file now sid
      { calls := calls, marked := false, fileAfter := f1,
        outcome := Except.ok tag } := by
  exact ⟨by simp, by simp, by simp⟩

lemma markSafe_of_safeResult (cw : Bool) (file : FileContent) (now : ℤ)
    (sid : Option String) (b : Bool) (f1 : FileContent) (r : HookResult)
    (hq : already_processed cw file now sid = Except.ok (b, f1))
    (hs : SafeResult f1 r) : MarkSafe cw file now sid r := by
  refine ⟨hs.1, fun e he => (hs.2 e he).1, fun e b' f1' he hq' => ?_⟩
  rw [hq] at hq'
  simp only [Except.ok.injEq, Prod.mk.injEq] at hq'
  obtain ⟨hb, hf⟩ := hq'
  subst hb
  subst hf
  rw [(hs.2 e he).2]
  exact already_processed_stable cw file now sid b f1 hq

/-- **C10.** A close signal whose `side` does not match the open position's
direction (side `long` against a SELL position, or side `short` against a
BUY position) causes zero order/delete/amend broker calls — only the
read-only position snapshot — completes `mark_processed`, and returns the
distinct outcome tag `mismatch_side_noop`. -/
theorem C10_mismatch_side (tick pctMin : ℚ) (env : BrokerEnv)
    (file f1 : FileContent) (now : ℤ) (d : Signal) (pp : Position)
    (entry : String × String × ℚ)
    (hsym : truthyS d.symbol = true)
    (hfind : SYMBOL_EPIC_MAP.find? (fun e => e.1 = d.symbol.getD "") =
       some entry)
    (hact : d.action = some "close")
    (hdup : already_processed true file now d.signal_id =
       Except.ok (false, f1))
    (hfetch : env.fetchStatus = 200)
    (hpos : find_position env.positions entry.2.1 = some pp)
    (hmm : (d.side = some "long" ∧ pp.direction = some "SELL") ∨
           (d.side = some "short" ∧ pp.direction = some "BUY")) :
    (handle_webhook tick pctMin true env file now d).calls =
        [BrokerCall.fetchPositions] ∧
    (handle_webhook tick pctMin true env file now d).calls.filter
        (fun c => c.isMutating) = [] ∧
    (handle_webhook tick pctMin true env file now d).marked = true ∧
    (handle_webhook tick pctMin true env file now d).outcome =
        Except.ok "mismatch_side_noop" := by
  have hacta : truthyS (some "close") = true := rfl
  have hres : handle_webhook tick pctMin true env file now d =
      mark_then true now d.signal_id [BrokerCall.fetchPositions] f1
        "mismatch_side_noop" := by
    rcases hmm with ⟨hside, hdir⟩ | ⟨hside, hdir⟩ <;>
      simp [handle_webhook, handle_close, hsym, hacta, hfind, hact, hdup,
        hfetch, hpos, hside, hdir]
  rw [hres, mark_then_true_spec]
  refine ⟨rfl, ?_, rfl, rfl⟩
  simp [BrokerCall.isMutating]

/-- **C10, witness.** A concrete close signal with `side = long` against an
open SELL position: only the snapshot call, marked, `mismatch_side_noop`. -/
theorem C10_mismatch_side_witness :
    (handle_webhook 0 0 true
      { positions := [{ dealId := some "D7", epic := some "GOLD",
                        size := some 3, direction := some "SELL" }] }
      FileContent.missing 0
      { symbol := some "GOLD", action := some "close", side := some "long",
        signal_id := some "w10" }).calls = [BrokerCall.fetchPositions] ∧
    (handle_webhook 0 0 true
      { positions := [{ dealId := some "D7", epic := some "GOLD",
                        size := some 3, direction := some "SELL" }] }
      FileContent.missing 0
      { symbol := some "GOLD", action := some "close", side := some "long",
        signal_id := some "w10" }).outcome =
      Except.ok "mismatch_side_noop" := by
  have h := C10_mismatch_side 0 0
    { positions := [{ dealId := some "D7", epic := some "GOLD",
                      size := some 3, direction := some "SELL" }] }
    FileContent.missing FileContent.missing 0
    { symbol := some "GOLD", action := some "close", side := some "long",
      signal_id := some "w10" }
    { dealId := some "D7", epic := some "GOLD", size := 3,
      direction := some "SELL", stopLevel := none, avg := none }
    ("GOLD", "GOLD", 17/10)
    (by decide) (by simp [SYMBOL_EPIC_MAP]) rfl (by decide) rfl
    (by simp [find_position, parse_pos, pyOrS, pyOrQ, truthyS, truthyQ])
    (Or.inl ⟨rfl, rfl⟩)
  exact ⟨h.1, h.2.2.2⟩

/-- **C3, counterexample.** The claim says that a same-direction OPEN whose
stop is within the no-change threshold yields zero broker order/amend calls
and the "ignored" outcome. But line 255 also enters the amend branch when a
`take_profit` is present: with a stop exactly equal to the current stop
(`need_sl_change` is false) and a take-profit attached, an amend call *is*
emitted and the outcome is `amended stop/limit`, not "ignored". -/
theorem C3_counterexample :
    need_sl_change 0 (1/1000) (some 1900) (some 1900) (some 2000) = false ∧
    (handle_webhook 0 (1/1000) true
      { positions := [{ dealId := some "D1", epic := some "GOLD",
                        size := some 1, direction := some "BUY",
                        stopLevel := some 1900, level := some 2000 }] }
      FileContent.missing 0
      { symbol := some "GOLD", action := some "buy",
        stop_loss := some 1900, take_profit := some 2100 }).calls =
      [BrokerCall.fetchPositions,
       BrokerCall.amendPos "D1" (some 1900) (some 2100)] ∧
    (handle_webhook 0 (1/1000) true
      { positions := [{ dealId := some "D1", epic := some "GOLD",
                        size := some 1, direction := some "BUY",
                        stopLevel := some 1900, level := some 2000 }] }
      FileContent.missing 0
      { symbol := some "GOLD", action := some "buy",
        stop_loss := some 1900, take_profit := some 2100 }).outcome =
      Except.ok "amended stop/limit" := by
  have hns : need_sl_change 0 (1/1000) (some 1900) (some 1900)
      (some 2000) = false := by
    simp [need_sl_change, truthyQ]
  refine ⟨hns, ?_, ?_⟩ <;>
    simp [handle_webhook, handle_open, already_processed, truthyS,
      SYMBOL_EPIC_MAP, find_position, parse_pos, pyOrS, pyOrQ, truthyQ,
      hns, amend_stop_limit_call, mark_then, mark_processed, _load_ids,
      _save_ids, FileContent.rawEntries, pruneEntries, upsertEntry]

/-- **C3, amended.** For a same-direction OPEN signal: if the requested
stop is within the no-change threshold (`need_sl_change` false) **and the
signal carries no take-profit**, the handler emits zero order/amend broker
calls (only the read-only snapshot) and returns the named
`ignored (dup entry / no SL change)` outcome. If the stop materially
differs — including the case of an absent current stop — the position is
amended in place and no new order is placed. (A present take-profit alone
also routes to the amend path, which is what the original claim missed.) -/
theorem C3_same_direction (tick pctMin : ℚ) (env : BrokerEnv)
    (file f1 : FileContent) (now : ℤ) (d : Signal) (pp : Position)
    (entry : String × String × ℚ)
    (hsym : truthyS d.symbol = true)
    (hfind : SYMBOL_EPIC_MAP.find? (fun e => e.1 = d.symbol.getD "") =
       some entry)
    (hact : d.action = some "buy" ∨ d.action = some "sell")
    (hint : ¬ d.intent = some "close")
    (hdup : already_processed true file now d.signal_id =
       Except.ok (false, f1))
    (hfetch : env.fetchStatus = 200)
    (hpos : find_position env.positions entry.2.1 = some pp)
    (hdir : pp.direction =
       some (if d.action = some "buy" then "BUY" else "SELL")) :
    ((need_sl_change tick pctMin pp.stopLevel d.stop_loss pp.avg = false ∧
        d.take_profit = none) →
      (handle_webhook tick pctMin true env file now d).calls =
          [BrokerCall.fetchPositions] ∧
      (handle_webhook tick pctMin true env file now d).calls.filter
          (fun c => c.isMutating) = [] ∧
      (handle_webhook tick pctMin true env file now d).outcome =
          Except.ok "ignored (dup entry / no SL change)") ∧
    ((need_sl_change tick pctMin pp.stopLevel d.stop_loss pp.avg = true ∧
        (env.amendStatus = 200 ∨ env.amendStatus = 201)) →
      (handle_webhook tick pctMin true env file now d).calls =
          [BrokerCall.fetchPositions,
           BrokerCall.amendPos (pp.dealId.getD "None") d.stop_loss
             d.take_profit] ∧
      (∀ p, BrokerCall.postOrder p ∉
          (handle_webhook tick pctMin true env file now d).calls) ∧
      (handle_webhook tick pctMin true env file now d).outcome =
          Except.ok "amended stop/limit") := by
  have hopen : handle_webhook tick pctMin true env file now d =
      handle_open tick pctMin true env now d entry.2.1
        (d.size.getD entry.2.2) f1 (some pp) := by
    have hb : truthyS (some "buy") = true := rfl
    have hs2 : truthyS (some "sell") = true := rfl
    rcases hact with ha | ha <;>
      simp [handle_webhook, hsym, ha, hb, hs2, hfind, hdup, hfetch, hpos,
        hint]
  constructor
  · rintro ⟨hno, htp⟩
    have hres : handle_webhook tick pctMin true env file now d =
        mark_then true now d.signal_id [BrokerCall.fetchPositions] f1
          "ignored (dup entry / no SL change)" := by
      rw [hopen]
      rcases hact with ha | ha <;>
        simp [handle_open, ha, hdir, hno, htp] at hdir ⊢
    rw [hres, mark_then_true_spec]
    exact ⟨rfl, by simp [BrokerCall.isMutating], rfl⟩
  · rintro ⟨hyes, hamend⟩
    have hsl : ¬ d.stop_loss = none := by
      intro h
      rw [h] at hyes
      simp [need_sl_change] at hyes
    have hcall : amend_stop_limit_call (pp.dealId.getD "None") d.stop_loss
        d.take_profit =
          some (.amendPos (pp.dealId.getD "None") d.stop_loss
            d.take_profit) := by
      simp [amend_stop_limit_call, hsl]
    have hres : handle_webhook tick pctMin true env file now d =
        mark_then true now d.signal_id
          [BrokerCall.fetchPositions,
           BrokerCall.amendPos (pp.dealId.getD "None") d.stop_loss
             d.take_profit] f1 "amended stop/limit" := by
      rw [hopen]
      rcases hact with ha | ha <;>
        simp [handle_open, ha, hdir, hyes, hcall, hamend] at hdir ⊢
    rw [hres, mark_then_true_spec]
    refine ⟨rfl, ?_, rfl⟩
    intro p
    simp

/-- **C3, witness.** A same-direction OPEN with the stop equal to the
current stop and no take-profit: only the snapshot call, outcome
`ignored (dup entry / no SL change)`. -/
theorem C3_same_direction_witness :
    (handle_webhook 0 (1/1000) true
      { positions := [{ dealId := some "D1", epic := some "GOLD",
                        size := some 1, direction := some "BUY",
                        stopLevel := some 1900, level := some 2000 }] }
      FileContent.missing 0
      { symbol := some "GOLD", action := some "buy",
        stop_loss := some 1900 }).calls = [BrokerCall.fetchPositions] ∧
    (handle_webhook 0 (1/1000) true
      { positions := [{ dealId := some "D1", epic := some "GOLD",
                        size := some 1, direction := some "BUY",
                        stopLevel := some 1900, level := some 2000 }] }
      FileContent.missing 0
      { symbol := some "GOLD", action := some "buy",
        stop_loss := some 1900 }).outcome =
      Except.ok "ignored (dup entry / no SL change)" := by
  have h := C3_same_direction 0 (1/1000)
    { positions := [{ dealId := some "D1", epic := some "GOLD",
                      size := some 1, direction := some "BUY",
                      stopLevel := some 1900, level := some 2000 }] }
    FileContent.missing FileContent.missing 0
    { symbol := some "GOLD", action := some "buy",
      stop_loss := some 1900 }
    { dealId := some "D1", epic := some "GOLD", size := 1,
      direction := some "BUY", stopLevel := some 1900, avg := some 2000 }
    ("GOLD", "GOLD", 17/10)
    (by decide) (by simp [SYMBOL_EPIC_MAP]) (Or.inl rfl) (by simp)
    (by decide) rfl
    (by simp [find_position, parse_pos, pyOrS, pyOrQ, truthyS, truthyQ])
    (by simp)
  have h1 := h.1 ⟨by simp [need_sl_change, truthyQ], rfl⟩
  exact ⟨h1.1, h1.2.2⟩


/-- **C9.** The idempotency record is written only on success: if a handler
run completed its `mark_processed` then the outcome is a success tag, and
on every error outcome (validation failure, dedup-store failure, failed
snapshot, failed close, failed close-before-open, failed amend, failed
entry) no mark completed and the store still answers exactly what it
answered before the run for this signal id — a redelivery is reprocessed,
not deduplicated. -/
theorem C9_mark_only_after_success (tick pctMin : ℚ) (cw : Bool)
    (env : BrokerEnv) (file : FileContent) (now : ℤ) (d : Signal) :
    ((handle_webhook tick pctMin cw env file now d).marked = true →
       ∃ tag, (handle_webhook tick pctMin cw env file now d).outcome =
         Except.ok tag) ∧
    (∀ e, (handle_webhook tick pctMin cw env file now d).outcome =
         Except.error e →
       (handle_webhook tick pctMin cw env file now d).marked = false) ∧
    (∀ e b f1, (handle_webhook tick pctMin cw env file now d).outcome =
         Except.error e →
       already_processed cw file now d.signal_id = Except.ok (b, f1) →
       already_processed cw
           (handle_webhook tick pctMin cw env file now d).fileAfter now
           d.signal_id = Except.ok (b, f1)) := by
  suffices h : MarkSafe cw file now d.signal_id
      (handle_webhook tick pctMin cw env file now d) by
    exact ⟨h.1, h.2.1, h.2.2⟩
  simp only [handle_webhook]
  split
  · exact markSafe_error_record _ _ _ _ _ _ _
  · split
    · exact markSafe_error_record _ _ _ _ _ _ _
    · split
      · exact markSafe_error_record _ _ _ _ _ _ _
      · split
        · exact markSafe_error_record _ _ _ _ _ _ _
        · rename_i dup file1 heq
          split
          · exact markSafe_ok_unmarked _ _ _ _ _ _ _
          · rename_i hdup
            have hdup0 : dup = false := by simpa using hdup
            subst hdup0
            split
            · exact markSafe_of_safeResult _ _ _ _ _ _ _ heq
                (safeResult_error _ _ _ _)
            · split
              · exact markSafe_of_safeResult _ _ _ _ _ _ _ heq
                  (safeResult_handle_close _ _ _ _ _ _ _)
              · exact markSafe_of_safeResult _ _ _ _ _ _ _ heq
                  (safeResult_handle_open _ _ _ _ _ _ _ _ _ _)

/-- **C9, witness.** A failing entry order (broker answers 500): the run
errors and no mark is recorded. -/
theorem C9_mark_only_after_success_witness :
    (handle_webhook 0 0 true { entryStatus := 500 } FileContent.missing 0
       { symbol := some "GOLD", action := some "buy", size := some 5,
         signal_id := some "w9" }).marked = false :=
  (C9_mark_only_after_success 0 0 true { entryStatus := 500 }
    FileContent.missing 0
    { symbol := some "GOLD", action := some "buy", size := some 5,
      signal_id := some "w9" }).2.1 (500, "Entry order error") (by decide)


end WebhookApi
